import Mathlib

/-!
Verification of the container security & compliance audit engine of the
TD_DOCKER_2025 repository: the PowerShell category runners
(`test-security.ps1`, `test-multistage.ps1`, …), the suite aggregator
(`run-all-tests.ps1`) and the `/ready` endpoint of the Express API are
embedded shallowly below, and the properties stated about them are settled.

Modelling conventions:
* PowerShell string comparisons (`-eq`, `-contains`, `-match`) are
  case-insensitive by default; they are embedded through the `upperStr`
  normalisation helpers.
* `[math]::Round(x, d)` on .NET doubles is modelled as exact rational
  arithmetic with round-half-to-even (the .NET default midpoint rule).
* The `Details` hashtable attached to every check result is purely
  diagnostic output (never read back by any script) and is elided.
* A Dockerfile's raw text is modelled as its list of lines; the scripts'
  multiline regexes `^\s*FROM\s+` and `^\s*FROM\s+([^\s\r\n]+)` are
  embedded line-wise (every line is terminated by a line break, which
  itself satisfies `\s`).
-/

/-! ## String helpers (PowerShell case-insensitive comparison semantics) -/

/-- Uppercase every character of a string (ASCII, as used by the scripts'
string data). -/
def upperStr (s : String) : String :=
  String.mk (s.data.map Char.toUpper)

/-- Case-insensitive string equality: PowerShell `-eq` on strings. -/
def eqCI (a b : String) : Bool :=
  upperStr a == upperStr b

/-- Case-insensitive membership: PowerShell `-contains` on a string array. -/
def containsCI (l : List String) (x : String) : Bool :=
  l.any (fun y => eqCI y x)

/-- Does the character list begin with the given pattern? -/
def startsWithL : List Char → List Char → Bool
  | _, [] => true
  | [], _ :: _ => false
  | c :: cs, p :: ps => c == p && startsWithL cs ps

/-- Does the pattern occur contiguously inside the character list? -/
def hasSubL (pat : List Char) : List Char → Bool
  | [] => startsWithL [] pat
  | c :: cs => startsWithL (c :: cs) pat || hasSubL pat cs

/-- Substring containment, case-sensitive. -/
def hasSub (s pat : String) : Bool :=
  hasSubL pat.data s.data

/-- Substring containment, case-insensitive: PowerShell `-match` against a
literal (metacharacter-free) regex pattern. -/
def hasSubCI (s pat : String) : Bool :=
  hasSub (upperStr s) (upperStr pat)

/-- `s` matches at least one of the literal patterns (case-insensitively):
PowerShell `-match '(p1|p2|…)'`. -/
def matchAnyCI (s : String) (pats : List String) : Bool :=
  pats.any (fun p => hasSubCI s p)

/-- Case-insensitive "starts with": PowerShell `-match '^PAT'` for a literal
pattern. -/
def startsWithCI (s pat : String) : Bool :=
  startsWithL (upperStr s).data (upperStr pat).data

/-! ## Rounding (`[math]::Round`, .NET round-half-to-even) -/

/-- Round a rational to the nearest integer, ties to the even integer:
the .NET default `MidpointRounding.ToEven` used by `[math]::Round`. -/
def roundHalfEven (q : ℚ) : ℤ :=
  let f : ℤ := ⌊q⌋
  let r : ℚ := q - (f : ℚ)
  if r < 1/2 then f
  else if 1/2 < r then f + 1
  else if f % 2 = 0 then f else f + 1

/-- `[math]::Round(q, 1)`. -/
def round1 (q : ℚ) : ℚ :=
  (roundHalfEven (q * 10) : ℚ) / 10

/-- `[math]::Round(q, 2)`. -/
def round2 (q : ℚ) : ℚ :=
  (roundHalfEven (q * 100) : ℚ) / 100

/-! ## Check results and the category accumulator (`$Script:TestResults`) -/

/-- One recorded check: the hashtable appended to `$Script:TestResults.Steps`
by `Add-TestResult` (the diagnostic `Details` map is elided). -/
structure CheckResult where
  test : String
  status : String
  passed : Bool
  reason : String
deriving DecidableEq, Repr

/-- The per-category accumulator `$Script:TestResults`. -/
structure TestResults where
  category : String
  totalTests : Nat
  passed : Nat
  failed : Nat
  steps : List CheckResult
deriving DecidableEq, Repr

/-- The initial accumulator value of a category runner. -/
def initResults (category : String) : TestResults :=
  { category := category, totalTests := 0, passed := 0, failed := 0, steps := [] }

/-- `Add-TestResult`: increments the counters, appends the step record and
returns the passed flag (identical in every category runner). -/
def addTestResult (r : TestResults) (test : String) (passed : Bool)
    (reason : String) : TestResults × Bool :=
  let status := if passed then "OK" else "FAIL"
  let r' : TestResults :=
    { r with
      totalTests := r.totalTests + 1
      passed := if passed then r.passed + 1 else r.passed
      failed := if passed then r.failed else r.failed + 1
      steps := r.steps ++ [{ test := test, status := status, passed := passed, reason := reason }] }
  (r', passed)

/-- The outcome computed by one `Test-*` function before it is handed to
`Add-TestResult`. -/
structure EvaledCheck where
  test : String
  passed : Bool
  reason : String
deriving DecidableEq, Repr

/-- Record an evaluated check in the accumulator. -/
def addResult (r : TestResults) (e : EvaledCheck) : TestResults × Bool :=
  addTestResult r e.test e.passed e.reason

/-- A check's contribution to the category's `Passed` counter (hence to the
score numerator): 1 when it passed, 0 when it failed. -/
def checkCredit (e : EvaledCheck) : ℚ :=
  if e.passed then 1 else 0

/-- `$totalPercentage` of the final report:
`round(Passed / Steps.Count * 100, 1)` when at least one check was recorded,
0 otherwise. -/
def totalPercentage (r : TestResults) : ℚ :=
  if 0 < r.steps.length then
    round1 ((r.passed : ℚ) / (r.steps.length : ℚ) * 100)
  else 0

/-- The category runner's exit code: 0 when the score reaches the 70 %
threshold, 1 otherwise. -/
def categoryExitCode (r : TestResults) : Int :=
  if 70 ≤ totalPercentage r then 0 else 1

/-! ## Container inspection facts (`docker inspect` / `docker exec`) -/

/-- The `HostConfig` fields read by `test-security.ps1` for one container. -/
structure ContainerInspect where
  capDrop : List String
  capAdd : List String
  securityOpt : List String
  memory : Int
  cpuQuota : Int
  cpuPeriod : Int
  nanoCpus : Int
  readonlyRootfs : Bool
deriving DecidableEq, Repr

/-- Everything the security runner pulls for one container: the
`docker inspect` data (`none` when the container does not exist) and the
PID-1 user read via `docker exec … ps` (`none` when it cannot be read). -/
structure ContainerFacts where
  inspect : Option ContainerInspect
  psUser : Option String
deriving DecidableEq, Repr

/-! ## `test-security.ps1` check functions -/

/-- `Test-NonRootUser`: fail when the PID-1 user is `root` or `0`, or when
the user cannot be determined. -/
def nonRootCheck (container : String) (psUser : Option String) : EvaledCheck :=
  match psUser with
  | some user =>
    let isRoot := eqCI user "root" || eqCI user "0"
    { test := s!"Non-root user: {container}"
      passed := !isRoot
      reason := if isRoot then "Running as root (UID 0)" else "" }
  | none =>
    { test := s!"Non-root user: {container}"
      passed := false
      reason := "Cannot determine process user" }

/-- `$expectedCaps`: the per-service-type table of justified added
capabilities (with `CAP_` prefixed names), keyed by a name pattern matched
against the container name.  The source stores it in a PowerShell hashtable;
the results proved below only involve container names that match at most one
key, so the unspecified hashtable iteration order is immaterial. -/
def expectedCapsTable : List (String × List String) :=
  [ ("db", ["CAP_CHOWN", "CAP_DAC_OVERRIDE", "CAP_FOWNER", "CAP_SETGID", "CAP_SETUID"])
  , ("postgres", ["CAP_CHOWN", "CAP_DAC_OVERRIDE", "CAP_FOWNER", "CAP_SETGID", "CAP_SETUID"])
  , ("api", [])
  , ("frontend", [])
  , ("nginx", [])
  , ("node", []) ]

/-- The first table key the container name matches (`$containerType`). -/
def containerTypeOf (container : String) : Option String :=
  (expectedCapsTable.find? (fun kv => hasSubCI container kv.fst)).map (·.fst)

/-- The justified capability set for a container: the matched type's table
entry, or the empty set when no type matches. -/
def expectedFor (container : String) : List String :=
  match containerTypeOf container with
  | some t => ((expectedCapsTable.find? (fun kv => kv.fst == t)).map (·.snd)).getD []
  | none => []

/-- Normalise a capability name to its `CAP_` form (`-notmatch '^CAP_'`
check, case-insensitive). -/
def normalizeCap (cap : String) : String :=
  if startsWithCI cap "CAP_" then cap else "CAP_" ++ cap

/-- The added capabilities not justified for this container
(`$unexpectedCaps`; the original, unnormalised names are kept). -/
def unexpectedCapsOf (container : String) (capAdd : List String) : List String :=
  capAdd.filter (fun cap => !(containsCI (expectedFor container) (normalizeCap cap)))

/-- `Test-Capabilities`: passes iff the drop-list contains `ALL` and every
added capability is in the service type's justified set. -/
def capabilitiesCheck (container : String) (inspect : Option ContainerInspect) :
    EvaledCheck :=
  match inspect with
  | none =>
    { test := s!"Capabilities: {container}"
      passed := false
      reason := "Container not found" }
  | some i =>
    let hasDropAll := containsCI i.capDrop "ALL"
    let capAddCount := i.capAdd.length
    let unexpected := unexpectedCapsOf container i.capAdd
    let passed := hasDropAll && unexpected.isEmpty
    let reason :=
      if !hasDropAll then "Missing cap_drop: ALL"
      else if 0 < unexpected.length then
        "Unexpected capabilities: " ++ String.intercalate ", " unexpected
      else if 0 < capAddCount then
        s!"Info: {capAddCount} justified capabilities added"
      else ""
    { test := s!"Capabilities: {container}", passed := passed, reason := reason }

/-- `Test-SecurityOptions`: passes iff the security options contain
`no-new-privileges:true` or `no-new-privileges`. -/
def securityOptionsCheck (container : String) (inspect : Option ContainerInspect) :
    EvaledCheck :=
  match inspect with
  | none =>
    { test := s!"Security options: {container}"
      passed := false
      reason := "Container not found" }
  | some i =>
    let hasNNP := containsCI i.securityOpt "no-new-privileges:true" ||
                  containsCI i.securityOpt "no-new-privileges"
    { test := s!"Security options: {container}"
      passed := hasNNP
      reason := if !hasNNP then "Missing no-new-privileges" else "" }

/-- `Test-ResourceLimits`: passes iff a positive memory limit and a positive
CPU limit (quota/period or nano-CPU form) are both present. -/
def resourceLimitsCheck (container : String) (inspect : Option ContainerInspect) :
    EvaledCheck :=
  match inspect with
  | none =>
    { test := s!"Resource limits: {container}"
      passed := false
      reason := "Container not found" }
  | some i =>
    let hasMemoryLimit := 0 < i.memory
    let hasCpuLimit := (0 < i.cpuQuota && 0 < i.cpuPeriod) || 0 < i.nanoCpus
    let reasons :=
      (if !hasMemoryLimit then ["No memory limit"] else []) ++
      (if !hasCpuLimit then ["No CPU limit"] else [])
    { test := s!"Resource limits: {container}"
      passed := hasMemoryLimit && hasCpuLimit
      reason := String.intercalate ", " reasons }

/-- The service types allowed a writable root filesystem. -/
def writableAllowed : List String :=
  ["db", "postgres", "mysql", "mongo", "redis", "api", "nginx", "frontend"]

/-- `Test-ReadOnlyRootFS`: passes when the root filesystem is read-only or
the service type justifies a writable one. -/
def readOnlyRootCheck (container : String) (inspect : Option ContainerInspect) :
    EvaledCheck :=
  match inspect with
  | none =>
    { test := s!"Read-only rootfs: {container}"
      passed := false
      reason := "Container not found" }
  | some i =>
    let isAllowedWritable := matchAnyCI container writableAllowed
    let reason :=
      if !i.readonlyRootfs && !isAllowedWritable then
        "Filesystem writable without justification"
      else if !i.readonlyRootfs then
        "Writable (justified for this service type)"
      else ""
    { test := s!"Read-only rootfs: {container}"
      passed := i.readonlyRootfs || isAllowedWritable
      reason := reason }

/-- Run one container-level check for every container, in resolution order. -/
def runContainerStep (r : TestResults) (containers : List String)
    (check : String → EvaledCheck) : TestResults :=
  containers.foldl (fun acc c => (addResult acc (check c)).fst) r

/-- The main execution of `test-security.ps1`: with zero resolved containers
it exits 1 before recording any check; otherwise it runs the five steps over
every container and exits by the 70 % threshold. -/
def securityMain (containers : List String) (facts : String → ContainerFacts) :
    Int × Option TestResults :=
  if containers.isEmpty then (1, none)
  else
    let r := initResults "SECURITY"
    let r := runContainerStep r containers (fun c => nonRootCheck c (facts c).psUser)
    let r := runContainerStep r containers (fun c => capabilitiesCheck c (facts c).inspect)
    let r := runContainerStep r containers (fun c => securityOptionsCheck c (facts c).inspect)
    let r := runContainerStep r containers (fun c => resourceLimitsCheck c (facts c).inspect)
    let r := runContainerStep r containers (fun c => readOnlyRootCheck c (facts c).inspect)
    (categoryExitCode r, some r)

/-! ## Dockerfile analysis (`test-multistage.ps1`) -/

/-- If the line is a `FROM` line (`^\s*FROM\s+`, case-insensitive), return
the characters following the `FROM` keyword.  A bare `FROM` at end of line
also matches, since the line break that terminates the line satisfies `\s`. -/
def fromRest (line : String) : Option (List Char) :=
  match line.data.dropWhile Char.isWhitespace with
  | a :: b :: c :: d :: rest =>
    if a.toUpper == 'F' && b.toUpper == 'R' && c.toUpper == 'O' && d.toUpper == 'M' then
      match rest with
      | [] => some []
      | e :: _ => if e.isWhitespace then some rest else none
    else none
  | _ => none

/-- Is this a `FROM` line? -/
def isFromLine (line : String) : Bool :=
  (fromRest line).isSome

/-- `$stageCount`: the number of `FROM` statements in the Dockerfile. -/
def countFrom (lines : List String) : Nat :=
  (lines.filter isFromLine).length

/-- The image reference of a `FROM` line: the first whitespace-delimited
token after the keyword (`^\s*FROM\s+([^\s\r\n]+)`). -/
def fromImageOf (line : String) : Option String :=
  match fromRest line with
  | none => none
  | some rest =>
    let tok := (rest.dropWhile Char.isWhitespace).takeWhile (fun c => !c.isWhitespace)
    if tok.isEmpty then none else some (String.mk tok)

/-- The image references of all `FROM` statements, in order. -/
def fromImages (lines : List String) : List String :=
  lines.filterMap fromImageOf

/-- Split a character list at separator characters (the splitter keeps
empty components, like `String.split`). -/
def splitChars (sep : Char → Bool) : List Char → List Char → List String
  | cur, [] => [String.mk cur.reverse]
  | cur, c :: cs =>
    if sep c then String.mk cur.reverse :: splitChars sep [] cs
    else splitChars sep (c :: cur) cs

/-- Split a path into its components (`/` or `\` separated, as Split-Path
accepts both). -/
def pathComps (p : String) : List String :=
  splitChars (fun c => c == '/' || c == '\\') [] p.data

/-- `Split-Path $p -Leaf`: the last path component. -/
def leafOf (p : String) : String :=
  (pathComps p).getLastD ""

/-- `Split-Path (Split-Path $p -Parent) -Leaf`: the name of the folder
containing the file. -/
def parentFolderOf (p : String) : String :=
  (pathComps p).dropLast.getLastD ""

/-- The folder-name patterns for which a single-stage Dockerfile is waived
(`'(db|database|postgres|mysql|mongo|redis)'`). -/
def dbLikePatterns : List String :=
  ["db", "database", "postgres", "mysql", "mongo", "redis"]

/-- Does the folder name match a database-like pattern? -/
def dbLikeFolder (folder : String) : Bool :=
  matchAnyCI folder dbLikePatterns

/-- `Test-MultiStageDetection`: pass when the Dockerfile has at least two
`FROM` statements, or when multi-stage is waived for its database-like
containing folder. -/
def multiStageCheck (path : String) (content : Option (List String)) : EvaledCheck :=
  match content with
  | none =>
    { test := s!"Multi-stage: {leafOf path}"
      passed := false
      reason := "File not found" }
  | some lines =>
    let stageCount := countFrom lines
    let isMultiStage := 2 ≤ stageCount
    let parentFolder := parentFolderOf path
    let multiStageOptional := dbLikeFolder parentFolder
    let reason :=
      if !isMultiStage && multiStageOptional then
        s!"Single-stage (optional for {parentFolder} - database image)"
      else if !isMultiStage then
        s!"Only {stageCount} stage(s) found"
      else ""
    { test := s!"Multi-stage: {leafOf path}"
      passed := isMultiStage || multiStageOptional
      reason := reason }

/-- `Test-AlpineBaseImage`: pass iff the last `FROM` statement's image
reference matches `alpine` (a case-insensitive substring test). -/
def alpineCheck (path : String) (content : Option (List String)) : EvaledCheck :=
  match content with
  | none =>
    { test := s!"Alpine image: {leafOf path}"
      passed := false
      reason := "File not found" }
  | some lines =>
    match (fromImages lines).getLast? with
    | none =>
      { test := s!"Alpine image: {leafOf path}"
        passed := false
        reason := "No FROM statement found" }
    | some finalFrom =>
      let isAlpine := hasSubCI finalFrom "alpine"
      { test := s!"Alpine image: {leafOf path}"
        passed := isAlpine
        reason := if !isAlpine then s!"Base: {finalFrom} (not Alpine)" else "" }

/-- `Test-ImageSize`: pass iff the image size, rounded to MB, is at most
500 MB (`none` models a missing image). -/
def imageSizeCheck (image : String) (sizeBytes : Option Int) : EvaledCheck :=
  match sizeBytes with
  | none =>
    { test := s!"Image size: {image}"
      passed := false
      reason := "Image not found" }
  | some size =>
    let sizeMB := round2 ((size : ℚ) / 1048576)
    let isOptimal := sizeMB ≤ 500
    { test := s!"Image size: {image}"
      passed := isOptimal
      reason := if !isOptimal then s!"{sizeMB} MB (exceeds 500 MB)" else "" }

/-- The image-name patterns granted the higher 30-layer ceiling. -/
def bigBasePatterns : List String :=
  ["postgres", "mysql", "mongo", "redis", "nginx", "node", "alpine", "mariadb",
   "phpmyadmin", "apache", "td_docker_2025-db", "td_docker_2025-frontend"]

/-- `Test-LayerCount`: pass iff the history line count is within the
threshold (30 for well-known large bases, 20 otherwise). -/
def layerCountCheck (image : String) (history : Option (List String)) : EvaledCheck :=
  match history with
  | none =>
    { test := s!"Layer count: {image}"
      passed := false
      reason := "Cannot retrieve history" }
  | some h =>
    let layerCount := h.length
    let threshold := if matchAnyCI image bigBasePatterns then 30 else 20
    let isOptimal := layerCount ≤ threshold
    { test := s!"Layer count: {image}"
      passed := isOptimal
      reason := if !isOptimal then s!"{layerCount} layers (exceeds {threshold})" else "" }

/-- Run one Dockerfile- or image-level check over every target in order. -/
def runTargetStep (r : TestResults) (targets : List String)
    (check : String → EvaledCheck) : TestResults :=
  targets.foldl (fun acc t => (addResult acc (check t)).fst) r

/-- The main execution of `test-multistage.ps1`: with zero resolved
Dockerfiles it exits 1 before recording any check; otherwise it runs the
Dockerfile steps, the image steps when any image resolved, and exits by the
70 % threshold. -/
def multistageMain (dockerfiles : List String)
    (contentOf : String → Option (List String)) (images : List String)
    (sizeOf : String → Option Int) (historyOf : String → Option (List String)) :
    Int × Option TestResults :=
  if dockerfiles.isEmpty then (1, none)
  else
    let r := initResults "MULTI-STAGE BUILD"
    let r := runTargetStep r dockerfiles (fun d => multiStageCheck d (contentOf d))
    let r := runTargetStep r dockerfiles (fun d => alpineCheck d (contentOf d))
    let r := if images.isEmpty then r
             else runTargetStep r images (fun i => imageSizeCheck i (sizeOf i))
    let r := if images.isEmpty then r
             else runTargetStep r images (fun i => layerCountCheck i (historyOf i))
    (categoryExitCode r, some r)

/-! ## The suite aggregator (`run-all-tests.ps1`) -/

/-- How one configured test script behaves when the aggregator reaches it:
its file is missing, executing it throws, or it exits with a code. -/
inductive FileRun where
  | missing : FileRun
  | errored : FileRun
  | exited : Int → FileRun
deriving DecidableEq, Repr

/-- One entry of `$Script:TestSuite.Results`. -/
structure SuiteResult where
  name : String
  passed : Bool
  status : String
  exitCode : Int
deriving DecidableEq, Repr

/-- The aggregator's main loop over the configured scripts.  A missing file
is recorded as `FILE NOT FOUND` and the loop `continue`s unconditionally;
an executed script that fails (nonzero exit) or throws is recorded and, with
`-StopOnFailure`, `break`s the loop. -/
def runSuite (stopOnFailure : Bool) : List (String × FileRun) → List SuiteResult
  | [] => []
  | (name, FileRun.missing) :: rest =>
    { name := name, passed := false, status := "FILE NOT FOUND", exitCode := -1 } ::
      runSuite stopOnFailure rest
  | (name, FileRun.errored) :: rest =>
    { name := name, passed := false, status := "ERROR", exitCode := -1 } ::
      (if stopOnFailure then [] else runSuite stopOnFailure rest)
  | (name, FileRun.exited code) :: rest =>
    if code = 0 then
      { name := name, passed := true, status := "PASSED", exitCode := code } ::
        runSuite stopOnFailure rest
    else
      { name := name, passed := false, status := s!"FAILED (Exit: {code})", exitCode := code } ::
        (if stopOnFailure then [] else runSuite stopOnFailure rest)

/-- `$Script:TestFiles`: the configured category scripts, in order. -/
def testFiles : List String :=
  [ "Non-Root Users"
  , "Security Capabilities"
  , "Security Audit"
  , "Security Scan (Trivy)"
  , "API Functional Tests"
  , "Environment Configuration"
  , "Multi-Stage Builds"
  , "Docker Compose Orchestration" ]

/-- One full aggregator invocation: the configured scripts each behave as the
environment `behave` dictates. -/
def runSuiteMain (stopOnFailure : Bool) (behave : String → FileRun) : List SuiteResult :=
  runSuite stopOnFailure (testFiles.map (fun n => (n, behave n)))

/-- `$passedTests` of the final summary. -/
def passedCount (rs : List SuiteResult) : Nat :=
  (rs.filter (fun r => r.passed)).length

/-- The global score of `Write-TestSummary`: the literal `100.0` when every
recorded category passed, else `round(passed/total*100, 1)`. -/
def globalScore (rs : List SuiteResult) : ℚ :=
  if passedCount rs = rs.length then 100
  else round1 ((passedCount rs : ℚ) / (rs.length : ℚ) * 100)

/-- The aggregator's process exit code: 0 iff no recorded category failed. -/
def suiteExitCode (rs : List SuiteResult) : Int :=
  if (rs.filter (fun r => !r.passed)).length = 0 then 0 else 1

/-! ## The `/ready` endpoint (health.controller.js, item.service.js,
item.repository.js) -/

/-- The JSON body of `GET /ready`. -/
structure ReadyBody where
  ready : Bool
  database : String
  timestamp : String
deriving DecidableEq, Repr

/-- `ItemRepository.healthCheck`: `SELECT 1` succeeding yields `true`; any
query error is caught and yields `false`.  The query outcome is the
environment. -/
def repoHealthCheck (query : Except String Unit) : Bool :=
  match query with
  | Except.ok _ => true
  | Except.error _ => false

/-- `ItemService.checkDatabaseHealth`: the database field is `healthy` iff
the repository probe returned `true`. -/
def checkDatabaseHealth (query : Except String Unit) (now : String) :
    String × String :=
  (if repoHealthCheck query then "healthy" else "unhealthy", now)

/-- `HealthController.ready`: HTTP 200 with `ready:true` iff the health
probe reports `healthy`, HTTP 503 with `ready:false` otherwise. -/
def readyHandler (query : Except String Unit) (now : String) : Nat × ReadyBody :=
  let h := checkDatabaseHealth query now
  let isReady := h.fst == "healthy"
  ( if isReady then 200 else 503
  , { ready := isReady, database := h.fst, timestamp := h.snd } )

/-! ## `test-security-caps.ps1` (`Test-ContainerCapabilities`)

The Security Capabilities category runner scores each container over six
sub-checks, accumulating fractional credit in `$Score` out of
`$MaxScore = 6`. -/

/-- The `HostConfig` fields read by `Test-ContainerCapabilities`. -/
structure CapsHostConfig where
  capDrop : List String
  capAdd : List String
  securityOpt : List String
  privileged : Bool
  usernsMode : String
  memory : Int
  cpuQuota : Int
  cpuPeriod : Int
deriving DecidableEq, Repr

/-- `$RequiredCaps`: the per-service justified added-capability sets of the
capabilities audit.  No `CAP_` normalisation is applied in this script, and
justification is an existential search over every matching key, so the
unspecified hashtable iteration order is immaterial. -/
def requiredCapsTable : List (String × List String) :=
  [ ("nginx", ["CAP_CHOWN", "CAP_SETGID", "CAP_SETUID"])
  , ("frontend", ["CAP_CHOWN", "CAP_SETGID", "CAP_SETUID"])
  , ("postgres", ["CAP_CHOWN", "CAP_DAC_OVERRIDE", "CAP_FOWNER", "CAP_SETGID", "CAP_SETUID"])
  , ("db", ["CAP_CHOWN", "CAP_DAC_OVERRIDE", "CAP_FOWNER", "CAP_SETGID", "CAP_SETUID"])
  , ("node", [])
  , ("api", []) ]

/-- An added capability is justified when some service key matches the
service name (case-insensitive substring) and its set lists the
capability. -/
def capJustified (serviceName cap : String) : Bool :=
  requiredCapsTable.any (fun kv => hasSubCI serviceName kv.fst && containsCI kv.snd cap)

/-- Sub-check 1 of `Test-ContainerCapabilities` (`CapDrop`): credit 1 when
the drop-list contains `ALL`; credit 0.5, with the recommendation warning,
when it is non-empty but lacks `ALL`; credit 0 when it is empty.  The
second component is the warning/status line the taken branch writes. -/
def capDropEval (capDrop : List String) : ℚ × String :=
  if !capDrop.isEmpty && containsCI capDrop "ALL" then
    (1, "CapDrop: ALL (all capabilities dropped)")
  else if 0 < capDrop.length then
    (1/2, "Recommendation: Use 'ALL' to drop all capabilities")
  else
    (0, "No capabilities dropped (HIGH RISK!)")

/-- Sub-check 2 (`CapAdd`): credit 1 when nothing is added or every added
capability is justified, credit 0.5 otherwise. -/
def capAddCredit (serviceName : String) (capAdd : List String) : ℚ :=
  if capAdd.isEmpty then 1
  else if capAdd.all (fun cap => capJustified serviceName cap) then 1
  else 1/2

/-- `Test-ContainerCapabilities`: the `$Score` accumulated over the six
sub-checks (capability drop, capability add, `no-new-privileges:true`,
privileged mode, user namespace, resource limits); a service whose
container cannot be found or inspected scores 0. -/
def testContainerCapabilities (serviceName : String)
    (hc : Option CapsHostConfig) : ℚ :=
  match hc with
  | none => 0
  | some h =>
    (capDropEval h.capDrop).fst
    + capAddCredit serviceName h.capAdd
    + (if containsCI h.securityOpt "no-new-privileges:true" then 1 else 0)
    + (if h.privileged then 0 else 1)
    + (if eqCI h.usernsMode "host" then 0
       else if !h.usernsMode.isEmpty then 1
       else 1/2)
    + (if 0 < h.memory || (0 < h.cpuQuota && 0 < h.cpuPeriod) then 1 else 0)

/-! ## Auxiliary definitions for concrete instances and invariants -/

/-- A container inspection record with the given capability lists and all
other `HostConfig` fields at their zero values. -/
def mkInspect (drop add : List String) : ContainerInspect :=
  { capDrop := drop, capAdd := add, securityOpt := [],
    memory := 0, cpuQuota := 0, cpuPeriod := 0, nanoCpus := 0,
    readonlyRootfs := false }

/-- A capabilities-audit host config with the given drop-list and add-list
and all other fields at their zero values. -/
def mkCapsConfig (drop add : List String) : CapsHostConfig :=
  { capDrop := drop, capAdd := add, securityOpt := [], privileged := false,
    usernsMode := "", memory := 0, cpuQuota := 0, cpuPeriod := 0 }

/-- Fold a list of check outcomes into a category accumulator through
`Add-TestResult`. -/
def mkResults (bs : List Bool) : TestResults :=
  bs.foldl (fun r b => (addTestResult r "check" b "").fst) (initResults "SECURITY")

/-- The accumulator invariant: the test counter equals passed + failed,
equals the number of recorded steps, and every recorded step's status is
strictly `OK` or `FAIL`. -/
def resultsWellFormed (r : TestResults) : Prop :=
  r.totalTests = r.passed + r.failed ∧
  r.totalTests = r.steps.length ∧
  ∀ s ∈ r.steps, s.status = "OK" ∨ s.status = "FAIL"

/-! ## General lemmas -/

lemma runSuite_length_le (stop : Bool) (entries : List (String × FileRun)) :
    (runSuite stop entries).length ≤ entries.length := by
  induction entries with
  | nil => simp [runSuite]
  | cons e rest ih =>
    obtain ⟨name, run⟩ := e
    cases run with
    | missing => simpa [runSuite] using ih
    | errored =>
      cases stop <;> simp [runSuite]
      · exact ih
    | exited c =>
      by_cases hc : c = 0
      · simpa [runSuite, hc] using ih
      · cases stop <;> simp [runSuite, hc]
        · exact ih

lemma runSuite_ne_nil (stop : Bool) (e : String × FileRun)
    (rest : List (String × FileRun)) : runSuite stop (e :: rest) ≠ [] := by
  obtain ⟨name, run⟩ := e
  cases run with
  | missing => simp [runSuite]
  | errored => simp [runSuite]
  | exited c => by_cases hc : c = 0 <;> simp [runSuite, hc]

lemma runSuite_passed_iff (stop : Bool) (entries : List (String × FileRun)) :
    ∀ r ∈ runSuite stop entries, (r.passed = true ↔ r.exitCode = 0) := by
  induction entries with
  | nil => intro r hr; simp [runSuite] at hr
  | cons e rest ih =>
    obtain ⟨name, run⟩ := e
    intro r hr
    cases run with
    | missing =>
      simp only [runSuite] at hr
      rcases List.mem_cons.mp hr with h | h
      · subst h; simp
      · exact ih r h
    | errored =>
      simp only [runSuite] at hr
      rcases List.mem_cons.mp hr with h | h
      · subst h; simp
      · cases stop with
        | false => exact ih r (by simpa using h)
        | true => simp at h
    | exited c =>
      simp only [runSuite] at hr
      by_cases hc : c = 0
      · rw [if_pos hc] at hr
        rcases List.mem_cons.mp hr with h | h
        · subst h; simp [hc]
        · exact ih r h
      · rw [if_neg hc] at hr
        rcases List.mem_cons.mp hr with h | h
        · subst h; simp [hc]
        · cases stop with
          | false => exact ih r (by simpa using h)
          | true => simp at h

lemma passedCount_le (rs : List SuiteResult) : passedCount rs ≤ rs.length :=
  rs.length_filter_le _

lemma passedCount_eq_length_iff (rs : List SuiteResult) :
    passedCount rs = rs.length ↔ ∀ r ∈ rs, r.passed = true := by
  unfold passedCount
  exact List.filter_length_eq_length

lemma noFailed_iff (rs : List SuiteResult) :
    (rs.filter (fun r => !r.passed)).length = 0 ↔ ∀ r ∈ rs, r.passed = true := by
  simp [List.length_eq_zero, List.filter_eq_nil_iff]

lemma round1_ne_100_of_lt (t p : ℕ) (ht : t < 9) (hp : p < t) :
    round1 ((p : ℚ) / (t : ℚ) * 100) ≠ 100 := by
  interval_cases t <;> interval_cases p <;> norm_num [round1, roundHalfEven]

lemma runSuiteMain_length_le (stop : Bool) (behave : String → FileRun) :
    (runSuiteMain stop behave).length ≤ 8 := by
  have h := runSuite_length_le stop (testFiles.map (fun n => (n, behave n)))
  simpa [runSuiteMain, testFiles] using h

lemma runSuiteMain_ne_nil (stop : Bool) (behave : String → FileRun) :
    runSuiteMain stop behave ≠ [] := by
  simp only [runSuiteMain, testFiles, List.map]
  exact runSuite_ne_nil stop _ _

lemma globalScore_eq_100_iff (rs : List SuiteResult)
    (hlen : rs.length ≤ 8) :
    globalScore rs = 100 ↔ ∀ r ∈ rs, r.passed = true := by
  rw [← passedCount_eq_length_iff]
  constructor
  · intro h
    by_contra hne'
    have hlt : passedCount rs < rs.length :=
      lt_of_le_of_ne (passedCount_le rs) hne'
    rw [globalScore, if_neg hne'] at h
    exact round1_ne_100_of_lt rs.length (passedCount rs)
      (lt_of_le_of_lt hlen (by norm_num)) hlt h
  · intro h
    rw [globalScore, if_pos h]

/-! ## Claim theorems -/

/-- C5: a category runner invocation that resolves zero targets (no running
containers for the security audit, no Dockerfiles for the multi-stage audit)
terminates in a hard failure with exit status 1 and produces no report at
all — in particular no vacuous 0/0 or 100 % score. -/
theorem zero_targets_hard_failure (facts : String → ContainerFacts)
    (contentOf : String → Option (List String)) (images : List String)
    (sizeOf : String → Option Int) (historyOf : String → Option (List String)) :
    securityMain [] facts = (1, none) ∧
    multistageMain [] contentOf images sizeOf historyOf = (1, none) :=
  ⟨rfl, rfl⟩

/-- C6 (counterexample): with `-StopOnFailure` set, a missing script file is
recorded as a `FILE NOT FOUND` hard failure but the loop still continues —
the following category is executed anyway, so stop-on-first-failure does
not short-circuit after a missing file. -/
theorem missing_file_stoponfailure_cex :
    runSuite true
      [("Non-Root Users", FileRun.missing), ("Security Capabilities", FileRun.exited 0)] =
      [ { name := "Non-Root Users", passed := false,
          status := "FILE NOT FOUND", exitCode := -1 }
      , { name := "Security Capabilities", passed := true,
          status := "PASSED", exitCode := 0 } ] := by
  rfl

/-- C6 (amended): a configured category whose script file is missing is
recorded as a hard failure with status `FILE NOT FOUND` and never aborts
the remaining categories, even under stop-on-first-failure; for an executed
category that fails (nonzero exit) or throws, stop-on-first-failure
short-circuits the remaining categories. -/
theorem missing_file_never_aborts (stop : Bool) (name : String)
    (rest : List (String × FileRun)) (code : Int) :
    (runSuite stop ((name, FileRun.missing) :: rest) =
      { name := name, passed := false, status := "FILE NOT FOUND", exitCode := -1 } ::
        runSuite stop rest) ∧
    (code ≠ 0 →
      runSuite true ((name, FileRun.exited code) :: rest) =
        [{ name := name, passed := false,
           status := s!"FAILED (Exit: {code})", exitCode := code }]) ∧
    (runSuite true ((name, FileRun.errored) :: rest) =
      [{ name := name, passed := false, status := "ERROR", exitCode := -1 }]) := by
  refine ⟨rfl, ?_, rfl⟩
  intro h
  simp [runSuite, h]

/-- Witness for C6 (amended) at concrete inputs: a missing first script with
stop-on-first-failure set still lets the second script run, and a first
script exiting 2 under stop-on-first-failure short-circuits the second. -/
theorem missing_file_never_aborts_witness :
    (runSuite true [("Non-Root Users", FileRun.missing), ("Security Audit", FileRun.exited 0)] =
      { name := "Non-Root Users", passed := false,
        status := "FILE NOT FOUND", exitCode := -1 } ::
        runSuite true [("Security Audit", FileRun.exited 0)]) ∧
    (runSuite true [("Security Audit", FileRun.exited 2), ("Multi-Stage Builds", FileRun.exited 0)] =
      [{ name := "Security Audit", passed := false,
         status := "FAILED (Exit: 2)", exitCode := 2 }]) :=
  ⟨(missing_file_never_aborts true "Non-Root Users"
      [("Security Audit", FileRun.exited 0)] 0).1,
   by
    have h := (missing_file_never_aborts true "Security Audit"
      [("Multi-Stage Builds", FileRun.exited 0)] 2).2.1 (by decide)
    simpa using h⟩

/-- C9: `GET /ready` returns HTTP 200 with `ready:true` and
`database:"healthy"` exactly when the database health probe reports healthy,
and HTTP 503 with `ready:false` and `database:"unhealthy"` when the probe
query fails (database unreachable or unhealthy). -/
theorem ready_endpoint_rule (query : Except String Unit) (now : String) :
    (repoHealthCheck query = true →
      readyHandler query now =
        (200, { ready := true, database := "healthy", timestamp := now })) ∧
    (repoHealthCheck query = false →
      readyHandler query now =
        (503, { ready := false, database := "unhealthy", timestamp := now })) ∧
    ((readyHandler query now).fst = 200 ↔ repoHealthCheck query = true) := by
  cases query <;>
    simp [readyHandler, checkDatabaseHealth, repoHealthCheck]

/-- Witness for C9: a succeeding probe gives 200/ready, a connection error
gives 503/not-ready. -/
theorem ready_endpoint_rule_witness :
    readyHandler (Except.ok ()) "2025-01-01T00:00:00Z" =
      (200, { ready := true, database := "healthy",
              timestamp := "2025-01-01T00:00:00Z" }) ∧
    readyHandler (Except.error "ECONNREFUSED") "2025-01-01T00:00:00Z" =
      (503, { ready := false, database := "unhealthy",
              timestamp := "2025-01-01T00:00:00Z" }) :=
  ⟨(ready_endpoint_rule (Except.ok ()) "2025-01-01T00:00:00Z").1 rfl,
   (ready_endpoint_rule (Except.error "ECONNREFUSED") "2025-01-01T00:00:00Z").2.1 rfl⟩

/-- C10: `Add-TestResult` preserves the accumulator invariant
`TotalTests = Passed + Failed = Steps.Count`, appends exactly one step, and
only ever records the strict outcomes `OK` or `FAIL` (the invariant holds
for the initial accumulator, so it holds after every call). -/
theorem addTestResult_invariant (r : TestResults) (test : String)
    (passed : Bool) (reason : String) (h : resultsWellFormed r) :
    resultsWellFormed (addTestResult r test passed reason).fst ∧
    (addTestResult r test passed reason).fst.steps.length = r.steps.length + 1 ∧
    resultsWellFormed (initResults r.category) := by
  obtain ⟨h1, h2, h3⟩ := h
  refine ⟨⟨?_, ?_, ?_⟩, ?_, ?_, ?_, ?_⟩
  · cases passed <;> simp [addTestResult, h1] <;> omega
  · cases passed <;> simp [addTestResult, h2]
  · intro s hs
    cases passed <;> simp [addTestResult] at hs <;>
      rcases hs with hs | hs
    · exact h3 s hs
    · simp [hs]
    · exact h3 s hs
    · simp [hs]
  · cases passed <;> simp [addTestResult]
  · simp [initResults]
  · simp [initResults]
  · intro s hs
    simp [initResults] at hs

/-- Witness for C10: recording one passing check on the initial security
accumulator keeps the invariant and appends exactly one step. -/
theorem addTestResult_invariant_witness :
    resultsWellFormed
      (addTestResult (initResults "SECURITY") "Capabilities: db" true "").fst ∧
    (addTestResult (initResults "SECURITY") "Capabilities: db" true "").fst.steps.length =
      (initResults "SECURITY").steps.length + 1 :=
  ⟨(addTestResult_invariant (initResults "SECURITY") "Capabilities: db" true ""
      ⟨rfl, rfl, by simp [initResults]⟩).1,
   (addTestResult_invariant (initResults "SECURITY") "Capabilities: db" true ""
      ⟨rfl, rfl, by simp [initResults]⟩).2.1⟩

/-- C1: the capabilities-drop evaluation of the Security Capabilities
audit (`Test-ContainerCapabilities`) grants full credit (1 point) when the
capability drop-list contains `ALL`; when the drop-list is non-empty but
lacks `ALL` it grants half credit (0.5) with the warning recommendation to
use `ALL`; and when the drop-list is empty it grants zero credit, whatever
the add-list contains (added capabilities are judged by a separate
sub-check). -/
theorem capsDrop_credit_scheme (h : CapsHostConfig) :
    (containsCI h.capDrop "ALL" = true → (capDropEval h.capDrop).fst = 1) ∧
    (h.capDrop ≠ [] → containsCI h.capDrop "ALL" = false →
      (capDropEval h.capDrop).fst = 1/2 ∧
      (capDropEval h.capDrop).snd =
        "Recommendation: Use 'ALL' to drop all capabilities") ∧
    (h.capDrop = [] → ∀ add : List String,
      (capDropEval ({ h with capAdd := add } : CapsHostConfig).capDrop).fst = 0) := by
  refine ⟨?_, ?_, ?_⟩
  · intro hAll
    cases hd : h.capDrop with
    | nil => rw [hd] at hAll; simp [containsCI] at hAll
    | cons a l =>
      rw [hd] at hAll
      simp [capDropEval, hAll]
  · intro hne hno
    cases hd : h.capDrop with
    | nil => exact absurd hd hne
    | cons a l =>
      rw [hd] at hno
      simp [capDropEval, hno]
  · intro hd add
    have hsame : ({ h with capAdd := add } : CapsHostConfig).capDrop = h.capDrop := rfl
    rw [hsame, hd]
    simp [capDropEval]

/-- Witness for C1 at concrete drop-lists: `["ALL"]` earns credit 1,
`["CHOWN"]` earns credit 0.5 with the recommendation warning, and an empty
drop-list earns 0 even with a non-empty add-list. -/
theorem capsDrop_credit_scheme_witness :
    (capDropEval ["ALL"]).fst = 1 ∧
    (capDropEval ["CHOWN"]).fst = 1/2 ∧
    (capDropEval ["CHOWN"]).snd =
      "Recommendation: Use 'ALL' to drop all capabilities" ∧
    (capDropEval ([] : List String)).fst = 0 :=
  ⟨(capsDrop_credit_scheme (mkCapsConfig ["ALL"] [])).1 (by decide),
   ((capsDrop_credit_scheme (mkCapsConfig ["CHOWN"] [])).2.1
      (by decide) (by decide)).1,
   ((capsDrop_credit_scheme (mkCapsConfig ["CHOWN"] [])).2.1
      (by decide) (by decide)).2,
   (capsDrop_credit_scheme (mkCapsConfig [] [])).2.2 rfl ["SYS_ADMIN"]⟩

/-- C2: for a container whose drop-list contains `ALL`, the fate of added
capabilities is decided by the service-type exception table, matched by
substring on the container name: a container resolving to type `db` or
`postgres` with add-list `[CHOWN, SETUID]` passes (both capabilities are in
the justified set after `CAP_` normalisation), while a container resolving
to type `api` fails with the unjustified capabilities named in the reason,
because the `api` justified set is empty. -/
theorem capsAdd_service_exceptions (container : String) (i : ContainerInspect)
    (hdrop : containsCI i.capDrop "ALL" = true)
    (hadd : i.capAdd = ["CHOWN", "SETUID"]) :
    ((containerTypeOf container = some "db" ∨
      containerTypeOf container = some "postgres") →
      (capabilitiesCheck container (some i)).passed = true) ∧
    (containerTypeOf container = some "api" →
      (capabilitiesCheck container (some i)).passed = false ∧
      (capabilitiesCheck container (some i)).reason =
        "Unexpected capabilities: CHOWN, SETUID") := by
  constructor
  · intro h
    have hexp : expectedFor container =
        ["CAP_CHOWN", "CAP_DAC_OVERRIDE", "CAP_FOWNER", "CAP_SETGID", "CAP_SETUID"] := by
      rcases h with h | h <;> (unfold expectedFor; rw [h]) <;> decide
    have hunex : unexpectedCapsOf container i.capAdd = [] := by
      unfold unexpectedCapsOf
      rw [hadd, hexp]
      decide
    simp [capabilitiesCheck, hdrop, hunex]
  · intro h
    have hexp : expectedFor container = [] := by
      unfold expectedFor; rw [h]; decide
    have hunex : unexpectedCapsOf container i.capAdd = ["CHOWN", "SETUID"] := by
      unfold unexpectedCapsOf
      rw [hadd, hexp]
      decide
    constructor
    · simp [capabilitiesCheck, hdrop, hunex]
    · simp [capabilitiesCheck, hdrop, hunex]
      decide

/-- Witness for C2 at the concrete container names `db`, `postgres` and
`api`, each with drop-list `["ALL"]` and add-list `["CHOWN", "SETUID"]`. -/
theorem capsAdd_service_exceptions_witness :
    (capabilitiesCheck "db" (some (mkInspect ["ALL"] ["CHOWN", "SETUID"]))).passed = true ∧
    (capabilitiesCheck "postgres" (some (mkInspect ["ALL"] ["CHOWN", "SETUID"]))).passed = true ∧
    (capabilitiesCheck "api" (some (mkInspect ["ALL"] ["CHOWN", "SETUID"]))).passed = false ∧
    (capabilitiesCheck "api" (some (mkInspect ["ALL"] ["CHOWN", "SETUID"]))).reason =
      "Unexpected capabilities: CHOWN, SETUID" :=
  ⟨(capsAdd_service_exceptions "db" (mkInspect ["ALL"] ["CHOWN", "SETUID"])
      (by decide) rfl).1 (Or.inl (by decide)),
   (capsAdd_service_exceptions "postgres" (mkInspect ["ALL"] ["CHOWN", "SETUID"])
      (by decide) rfl).1 (Or.inr (by decide)),
   ((capsAdd_service_exceptions "api" (mkInspect ["ALL"] ["CHOWN", "SETUID"])
      (by decide) rfl).2 (by decide)).1,
   ((capsAdd_service_exceptions "api" (mkInspect ["ALL"] ["CHOWN", "SETUID"])
      (by decide) rfl).2 (by decide)).2⟩

/-- C3: the score of a category report with at least one recorded check is
`round(passed/total * 100, 1)` where the total is the number of recorded
steps; in particular 7 passed checks out of 10 recorded checks score
exactly 70.0. -/
theorem category_score_formula (r : TestResults) :
    (0 < r.steps.length →
      totalPercentage r = round1 ((r.passed : ℚ) / (r.steps.length : ℚ) * 100)) ∧
    (r.passed = 7 → r.steps.length = 10 → totalPercentage r = 70) := by
  constructor
  · intro h
    simp [totalPercentage, h]
  · intro h7 h10
    rw [totalPercentage, if_pos (by omega), h7, h10]
    norm_num [round1, roundHalfEven]

/-- Witness for C3: folding 7 passing and 3 failing checks through
`Add-TestResult` yields a report whose score is exactly 70. -/
theorem category_score_formula_witness :
    totalPercentage
      (mkResults [true, true, true, true, true, true, true, false, false, false]) = 70 :=
  (category_score_formula
      (mkResults [true, true, true, true, true, true, true, false, false, false])).2
    (by decide) (by decide)

/-- C7: the multi-stage check passes whenever the Dockerfile has at least
two `FROM` statements or its parent folder matches a database-like pattern;
in the waived case the reason notes multi-stage was optional, and a
single-`FROM` Dockerfile under a folder named `api` fails with the stage
count in the reason. -/
theorem multistage_check_rule (path : String) (lines : List String) :
    ((2 ≤ countFrom lines ∨ dbLikeFolder (parentFolderOf path) = true) →
      (multiStageCheck path (some lines)).passed = true) ∧
    (countFrom lines < 2 → dbLikeFolder (parentFolderOf path) = true →
      (multiStageCheck path (some lines)).reason =
        "Single-stage (optional for " ++ parentFolderOf path ++ " - database image)") ∧
    (countFrom lines = 1 → parentFolderOf path = "api" →
      (multiStageCheck path (some lines)).passed = false ∧
      (multiStageCheck path (some lines)).reason = "Only 1 stage(s) found") := by
  refine ⟨?_, ?_, ?_⟩
  · intro h
    rcases h with h | h <;> simp [multiStageCheck, h]
  · intro hlt hdb
    have hns : ¬ 2 ≤ countFrom lines := by omega
    simp only [multiStageCheck, hdb, hns]
    rfl
  · intro h1 hapi
    have hdb : dbLikeFolder (parentFolderOf path) = false := by
      rw [hapi]; decide
    have hns : ¬ 2 ≤ countFrom lines := by omega
    constructor
    · simp [multiStageCheck, hdb, hns]
    · simp only [multiStageCheck, hdb, hns, h1]
      rfl

/-- Witness for C7: a single-`FROM` Dockerfile under a folder named `db`
passes with the optional-waiver reason; the same single-`FROM` Dockerfile
under a folder named `api` fails with the stage count in the reason. -/
theorem multistage_check_rule_witness :
    (multiStageCheck "proj/db/Dockerfile" (some ["FROM postgres:15-alpine"])).passed = true ∧
    (multiStageCheck "proj/db/Dockerfile" (some ["FROM postgres:15-alpine"])).reason =
      "Single-stage (optional for db - database image)" ∧
    (multiStageCheck "proj/api/Dockerfile" (some ["FROM node:22"])).passed = false ∧
    (multiStageCheck "proj/api/Dockerfile" (some ["FROM node:22"])).reason =
      "Only 1 stage(s) found" :=
  ⟨(multistage_check_rule "proj/db/Dockerfile" ["FROM postgres:15-alpine"]).1
      (Or.inr (by decide)),
   by
    have h := (multistage_check_rule "proj/db/Dockerfile" ["FROM postgres:15-alpine"]).2.1
      (by decide) (by decide)
    simpa using h,
   ((multistage_check_rule "proj/api/Dockerfile" ["FROM node:22"]).2.2
      (by decide) (by decide)).1,
   ((multistage_check_rule "proj/api/Dockerfile" ["FROM node:22"]).2.2
      (by decide) (by decide)).2⟩

/-- C8 (counterexample): the Alpine check matches `alpine` in the final
`FROM` image case-insensitively (PowerShell `-match`): a Dockerfile whose
only `FROM` image is `nginx:ALPINE` passes although that image reference
does not contain the substring `alpine`, so "passes iff the last FROM image
contains the substring alpine" is false as stated. -/
theorem alpine_substring_cex :
    (alpineCheck "frontend/Dockerfile" (some ["FROM nginx:ALPINE"])).passed = true ∧
    (fromImages ["FROM nginx:ALPINE"]).getLast? = some "nginx:ALPINE" ∧
    hasSub "nginx:ALPINE" "alpine" = false := by
  refine ⟨by decide, by decide, by decide⟩

/-- C8 (amended): for a Dockerfile with at least one `FROM` statement, the
Alpine check passes iff the image reference of the *last* `FROM` statement
contains `alpine` case-insensitively; only the last `FROM` is inspected. -/
theorem alpine_last_from_rule (path : String) (lines : List String) (img : String)
    (h : (fromImages lines).getLast? = some img) :
    (alpineCheck path (some lines)).passed = hasSubCI img "alpine" := by
  simp [alpineCheck, h]

/-- Witness for C8 (amended): a two-stage Dockerfile whose builder stage is
`node:22` but whose final stage is `nginx:1-alpine` passes. -/
theorem alpine_last_from_rule_witness :
    (fromImages ["FROM node:22 AS build", "FROM nginx:1-alpine"]).getLast? =
      some "nginx:1-alpine" ∧
    (alpineCheck "frontend/Dockerfile"
      (some ["FROM node:22 AS build", "FROM nginx:1-alpine"])).passed = true :=
  ⟨by decide,
   by
    rw [alpine_last_from_rule "frontend/Dockerfile"
      ["FROM node:22 AS build", "FROM nginx:1-alpine"] "nginx:1-alpine" (by decide)]
    decide⟩

/-- C4: the aggregator's global score is 100 % iff every recorded category's
exit status is 0; otherwise it is passed/total * 100 rounded to one decimal
(in particular, 5 passed of 6 recorded categories score exactly 83.3); and
the aggregator's own exit code is 0 iff every recorded category passed,
else 1. -/
theorem suite_global_score (stop : Bool) (behave : String → FileRun) :
    (globalScore (runSuiteMain stop behave) = 100 ↔
      ∀ r ∈ runSuiteMain stop behave, r.exitCode = 0) ∧
    ((¬ ∀ r ∈ runSuiteMain stop behave, r.passed = true) →
      globalScore (runSuiteMain stop behave) =
        round1 ((passedCount (runSuiteMain stop behave) : ℚ) /
          ((runSuiteMain stop behave).length : ℚ) * 100)) ∧
    ((runSuiteMain stop behave).length = 6 →
      passedCount (runSuiteMain stop behave) = 5 →
      globalScore (runSuiteMain stop behave) = 83.3) ∧
    (suiteExitCode (runSuiteMain stop behave) = 0 ↔
      ∀ r ∈ runSuiteMain stop behave, r.passed = true) := by
  have hpe : ∀ r ∈ runSuiteMain stop behave, (r.passed = true ↔ r.exitCode = 0) :=
    runSuite_passed_iff stop (testFiles.map (fun n => (n, behave n)))
  have hlen := runSuiteMain_length_le stop behave
  refine ⟨?_, ?_, ?_, ?_⟩
  · rw [globalScore_eq_100_iff _ hlen]
    constructor
    · intro h r hr; exact (hpe r hr).mp (h r hr)
    · intro h r hr; exact (hpe r hr).mpr (h r hr)
  · intro h
    have hne : passedCount (runSuiteMain stop behave) ≠
        (runSuiteMain stop behave).length := by
      intro he; exact h ((passedCount_eq_length_iff _).mp he)
    rw [globalScore, if_neg hne]
  · intro h6 h5
    have hne : passedCount (runSuiteMain stop behave) ≠
        (runSuiteMain stop behave).length := by
      rw [h5, h6]; norm_num
    rw [globalScore, if_neg hne, h5, h6]
    norm_num [round1, roundHalfEven]
  · by_cases hc :
      ((runSuiteMain stop behave).filter (fun r => !r.passed)).length = 0
    · simp only [suiteExitCode, if_pos hc]
      simpa using (noFailed_iff (runSuiteMain stop behave)).mp hc
    · simp only [suiteExitCode, if_neg hc]
      constructor
      · intro h; exact absurd h (by norm_num)
      · intro hall; exact absurd ((noFailed_iff _).mpr hall) hc

/-- Witness for C4: with every category exiting 0 the global score is 100
and the aggregator exits 0; with stop-on-failure and the sixth category
exiting 1 (five passed, run short-circuited at six categories) the global
score is exactly 83.3. -/
theorem suite_global_score_witness :
    globalScore (runSuiteMain false (fun _ => FileRun.exited 0)) = 100 ∧
    suiteExitCode (runSuiteMain false (fun _ => FileRun.exited 0)) = 0 ∧
    globalScore (runSuiteMain true
      (fun n => if n = "Environment Configuration" then FileRun.exited 1
                else FileRun.exited 0)) = 83.3 :=
  ⟨(suite_global_score false (fun _ => FileRun.exited 0)).1.mpr (by decide),
   (suite_global_score false (fun _ => FileRun.exited 0)).2.2.2.mpr (by decide),
   (suite_global_score true
      (fun n => if n = "Environment Configuration" then FileRun.exited 1
                else FileRun.exited 0)).2.2.1 (by decide) (by decide)⟩
